import Mathlib

/-!
Shallow embedding of `src/source/modules/m_batt_meas.c` (battery measurement
and classification pipeline) and verification of the specification's claims
about it.

Conventions of the embedding:
- C machine integers are modelled as `Nat` (unsigned) or `Int` (signed
  intermediates), with explicit wrap-around (`% 2^w`) where the C code can
  overflow; the `int16_t` narrowing in `batt_voltage_to_percent` is modelled
  by `int16ofInt`.
- C integer division truncates toward zero and is modelled by `Int.tdiv`.
- Operations whose C counterpart can hit undefined behaviour (division by
  zero, out-of-bounds array access) return `Option`, with `none` standing
  for the undefined case.
- `APP_ERROR_CHECK` escalation (fatal error handler) is modelled by an
  explicit `Fault` outcome.
- IEEE-754 single-precision arithmetic in `adc_to_batt_voltage` is idealised
  as exact rational arithmetic over `ℚ`.
-/

namespace BattMeas

/-- Status code `NRF_SUCCESS`. Modelled from the spec: the SDK headers are
not under `src/`; the success code is 0. -/
def NRF_SUCCESS : Nat := 0

/-- Status code `NRF_ERROR_INVALID_STATE` returned by `nrf_drv_saadc_init`
when the driver is already initialized. Modelled from the spec: the SDK
headers are not under `src/`. -/
def NRF_ERROR_INVALID_STATE : Nat := 8

/-- Status code `NRF_ERROR_NULL` produced by `VERIFY_PARAM_NOT_NULL`.
Modelled from the spec: the SDK headers are not under `src/`. -/
def NRF_ERROR_NULL : Nat := 14

/-- Status code `BLE_ERROR_GATTS_SYS_ATTR_MISSING`, one of the two sink
error codes tolerated by the deferred handler. Modelled from the spec: the
SDK headers are not under `src/`. -/
def BLE_ERROR_GATTS_SYS_ATTR_MISSING : Nat := 0x3401

/-- Module success code `M_BATT_STATUS_CODE_SUCCESS`. Modelled from the
spec: `m_batt_meas.h` is not under `src/`; success is 0. -/
def M_BATT_STATUS_CODE_SUCCESS : Nat := 0

/-- Module error code `M_BATT_STATUS_CODE_INVALID_PARAM`. Modelled from the
spec: `m_batt_meas.h` is not under `src/`; any fixed nonzero code works for
the development, the code only being compared for equality. -/
def M_BATT_STATUS_CODE_INVALID_PARAM : Nat := 7

/-- The state-of-charge lookup table (`state_of_charge` member of
`batt_meas_param_t`). Modelled from the spec (§3 SocTable): the header
defining the struct is not under `src/`. `voltage_to_soc` is the percent
level array. -/
structure StateOfCharge where
  first_element_mv : Nat
  delta_mv : Nat
  num_elements : Nat
  voltage_to_soc : List Nat
deriving Repr, DecidableEq

/-- The voltage divider parameters (`voltage_divider` member of
`batt_meas_param_t`). Modelled from the spec (§3 DividerConfig): the header
defining the struct is not under `src/`. -/
structure VoltageDivider where
  r_1_ohm : Nat
  r_2_ohm : Nat
deriving Repr, DecidableEq

/-- Battery measurement parameters (`batt_meas_param_t`), restricted to the
fields the measurement pipeline reads. Modelled from the spec (§3, §6): the
header defining the struct is not under `src/`. -/
structure BattMeasParam where
  voltage_divider : VoltageDivider
  batt_voltage_limit_low : Nat
  batt_voltage_limit_full : Nat
  state_of_charge : StateOfCharge
deriving Repr, DecidableEq

/-- Initialization input (`batt_meas_init_t`): event handler plus the
parameter block. The function pointer is modelled by its only observable
property in `param_check`, nullness. Modelled from the spec (§6): the
header defining the struct is not under `src/`. -/
structure BattMeasInit where
  evt_handler_null : Bool
  batt_meas_param : BattMeasParam
deriving Repr, DecidableEq

/-- C narrowing conversion of an `int` value to `int16_t`: two's-complement
wrap-around modulo 2^16 (the behaviour of the target compiler). -/
def int16ofInt (x : Int) : Int :=
  (x + 32768) % 65536 - 32768

/-- Embedding of `batt_voltage_to_percent` (m_batt_meas.c lines 63-81).
`voltage_mv` and `first_element_mv` are `uint16_t`, promoted to `int` for
the subtraction; the truncating C division is `Int.tdiv`; the quotient is
narrowed to `int16_t` (`int16ofInt`); the result index is clamped to
`[0, num_elements-1]` and used to index `voltage_to_soc`.
`none` models the undefined behaviour of division by `delta_mv = 0` and of
an out-of-bounds array access (possible when `num_elements = 0` or
`num_elements` exceeds the array length). -/
def batt_voltage_to_percent (soc : StateOfCharge) (voltage_mv : Nat) : Option Nat :=
  if soc.delta_mv = 0 then none
  else
    let q : Int := ((voltage_mv : Int) - (soc.first_element_mv : Int)).tdiv (soc.delta_mv : Int)
    let e0 : Int := int16ofInt q
    let e : Int :=
      if e0 < 0 then 0
      else if e0 > (soc.num_elements : Int) - 1 then (soc.num_elements : Int) - 1
      else e0
    if e < 0 then none
    else soc.voltage_to_soc.get? e.toNat

/-- The SoC lookup as the spec's words describe it (§4.2): floor division
`index = (voltage_mv - first_element_mv) / delta_mv`, clamp to
`[0, num_elements-1]`, return `levels[index]`. Stated for comparison with
the `batt_voltage_to_percent` embedding of the source. -/
def voltage_to_percent_spec (soc : StateOfCharge) (voltage_mv : Nat) : Option Nat :=
  let idx : Int := ((voltage_mv : Int) - (soc.first_element_mv : Int)).fdiv (soc.delta_mv : Int)
  let c : Int := max 0 (min idx ((soc.num_elements : Int) - 1))
  soc.voltage_to_soc.get? c.toNat

/-- The SoC table of the spec's concrete examples:
`first_element_mv=3000, delta_mv=100, levels=[0,10,...,100]`. -/
def exampleSoc : StateOfCharge :=
  ⟨3000, 100, 11, [0, 10, 20, 30, 40, 50, 60, 70, 80, 90, 100]⟩

/-- Result of `param_check` (m_batt_meas.c lines 142-170), distinguishing
the return sites. `errNullHandler` is the `VERIFY_PARAM_NOT_NULL` exit
(numeric code `NRF_ERROR_NULL`); `errInvalidDivider` and
`errInvalidThresholds` are the two `M_BATT_STATUS_CODE_INVALID_PARAM`
returns (same numeric code in the C source, distinguished here by return
site); `ok` carries the divider factor written to
`m_battery_divider_factor`, with the float arithmetic idealised over `ℚ`. -/
inductive ParamCheckResult where
  | ok (factor : ℚ)
  | errNullHandler
  | errInvalidDivider
  | errInvalidThresholds
deriving Repr, DecidableEq

/-- The numeric `uint32_t` code each `param_check` outcome returns in the C
source (both invalid-parameter sites return the same code). -/
def ParamCheckResult.code : ParamCheckResult → Nat
  | .ok _ => M_BATT_STATUS_CODE_SUCCESS
  | .errNullHandler => NRF_ERROR_NULL
  | .errInvalidDivider => M_BATT_STATUS_CODE_INVALID_PARAM
  | .errInvalidThresholds => M_BATT_STATUS_CODE_INVALID_PARAM

/-- Embedding of `param_check` (m_batt_meas.c lines 142-170): null-handler check, then
the divider-resistor analysis (both zero ⇒ factor 1; exactly one zero ⇒
invalid; otherwise factor `r2/(r1+r2)`), then the threshold check
(`full < low` ⇒ invalid). The caller-pointer null check
(`VERIFY_PARAM_NOT_NULL(p_batt_meas_init)`) is omitted: the embedding
passes the struct by value. -/
def param_check (p : BattMeasInit) : ParamCheckResult :=
  if p.evt_handler_null then .errNullHandler
  else
    let r1 := p.batt_meas_param.voltage_divider.r_1_ohm
    let r2 := p.batt_meas_param.voltage_divider.r_2_ohm
    if r1 = 0 ∧ r2 = 0 then
      if p.batt_meas_param.batt_voltage_limit_full < p.batt_meas_param.batt_voltage_limit_low
      then .errInvalidThresholds
      else .ok 1
    else if r1 = 0 ∨ r2 = 0 then .errInvalidDivider
    else
      if p.batt_meas_param.batt_voltage_limit_full < p.batt_meas_param.batt_voltage_limit_low
      then .errInvalidThresholds
      else .ok ((r2 : ℚ) / ((r1 : ℚ) + (r2 : ℚ)))

/-- Embedding of `adc_to_batt_voltage` (m_batt_meas.c lines 85-99), with the IEEE-754
single-precision arithmetic idealised as exact rational arithmetic:
`tmp = adc_val / ((adc_gain / 0.6) * 2^resolution_bits)` with
`adc_gain = 1` (`NRF_SAADC_GAIN1`, case `*real_val = 1` of
`adc_gain_enum_to_real_gain`), then `tmp_voltage = (uint16_t)(tmp /
divider_factor * 1000)` (truncation of a nonnegative value, wrap modulo
2^16), then rounding `((tmp_voltage + 5) / 10) * 10` in integer
arithmetic. `resolution_bits` stands for `ADC_RESOLUTION_BITS`, whose
value depends on `sdk_config.h`, which is not under `src/`. -/
def adc_to_batt_voltage (resolution_bits : Nat) (divider_factor : ℚ) (adc_val : Nat) : Nat :=
  let adc_gain : ℚ := 1
  let tmp : ℚ := (adc_val : ℚ) / ((adc_gain / (3 / 5)) * (2 ^ resolution_bits : ℚ))
  let tmp_voltage : Nat := (Rat.floor (tmp / divider_factor * 1000)).toNat % 65536
  ((tmp_voltage + 5) / 10) * 10

/-- Escalation through the fatal error handler: `APP_ERROR_CHECK(code)` /
`APP_ERROR_HANDLER(code)` with a non-success code. Modelled from the spec:
the `app_error` macros are not under `src/`; a fault aborts the function
(the default handler resets the system), it is not a benign return. -/
inductive Fault where
  | appError (code : Nat)
deriving Repr, DecidableEq

/-- Macro `APP_ERROR_CHECK`: succeed on `NRF_SUCCESS`, escalate otherwise.
Modelled from the spec: the macro is not under `src/`. -/
def APP_ERROR_CHECK (code : Nat) : Except Fault Unit :=
  if code = NRF_SUCCESS then .ok () else .error (.appError code)

/-- Ownership state of the shared SAADC driver: whether
`nrf_drv_saadc_init` has been called without a matching
`nrf_drv_saadc_uninit`. -/
structure AdcDriverState where
  initialized : Bool
deriving Repr, DecidableEq

/-- Driver call `nrf_drv_saadc_init`: returns `NRF_ERROR_INVALID_STATE` and leaves the
state unchanged when the driver is already initialized, otherwise succeeds
and takes ownership. Modelled from the spec (§4.4, §5 single-owner
discipline): the driver is not under `src/`. -/
def nrf_drv_saadc_init (s : AdcDriverState) : Nat × AdcDriverState :=
  if s.initialized then (NRF_ERROR_INVALID_STATE, s)
  else (NRF_SUCCESS, ⟨true⟩)

/-- Embedding of `saadc_init` (m_batt_meas.c lines 259-283): calls `nrf_drv_saadc_init`
and immediately `APP_ERROR_CHECK`s its return value, then configures the
channel and arms the single-sample buffer (modelled from the spec as
succeeding), and returns `M_BATT_STATUS_CODE_SUCCESS`. Note the
`APP_ERROR_CHECK` after `nrf_drv_saadc_init`: a non-success driver code
escalates, it is never returned to the caller. -/
def saadc_init (s : AdcDriverState) : Except Fault (Nat × AdcDriverState) := do
  let (err, s1) := nrf_drv_saadc_init s
  APP_ERROR_CHECK err
  return (M_BATT_STATUS_CODE_SUCCESS, s1)

/-- Outcome of one invocation of the periodic tick handler. -/
inductive TickOutcome where
  | benignSkip
  | triggered
deriving Repr, DecidableEq

/-- Embedding of `app_timer_periodic_handler` (m_batt_meas.c lines 310-323): calls
`saadc_init`; if its returned code is `NRF_ERROR_INVALID_STATE` the
handler returns without action (the benign "ADC already initialized"
branch); otherwise it `APP_ERROR_CHECK`s the code and triggers one sample
via `nrf_drv_saadc_sample` (modelled from the spec as succeeding). -/
def app_timer_periodic_handler (s : AdcDriverState) : Except Fault (TickOutcome × AdcDriverState) := do
  let (err, s1) ← saadc_init s
  if err = NRF_ERROR_INVALID_STATE then return (.benignSkip, s1)
  APP_ERROR_CHECK err
  return (.triggered, s1)

/-- The event type field of `m_batt_meas_event_t`
(`M_BATT_MEAS_EVENT_LOW` / `_FULL` / `_DATA`). Modelled from the spec
(§3 MeasurementEvent): the header is not under `src/`. -/
inductive BattMeasEventType where
  | low
  | full
  | data
deriving Repr, DecidableEq

/-- Structure `m_batt_meas_event_t` as filled in by `batt_event_handler_adc`.
Modelled from the spec (§3 MeasurementEvent): the header is not under
`src/`. -/
structure BattMeasEvent where
  type : BattMeasEventType
  voltage_mv : Nat
  level_percent : Nat
  valid_voltage : Bool
deriving Repr, DecidableEq

/-- What `batt_event_handler_adc` does with the computed percentage before
dispatch: push it to the BLE battery service
(`ble_bas_battery_level_update`) when the service is configured, or retain
it in `m_initial_batt_level_percent` otherwise. -/
inductive SinkAction where
  | basUpdate (percent : Nat)
  | retainInitial (percent : Nat)
deriving Repr, DecidableEq

/-- The observable result of one run of the deferred handler: the event
passed to `m_evt_handler` and the sink action taken before the dispatch. -/
structure DeferredResult where
  event : BattMeasEvent
  sink : SinkAction
deriving Repr, DecidableEq

/-- Outcome of `batt_event_handler_adc`: `undef` models the undefined
behaviour inherited from `batt_voltage_to_percent`; `fault` models
`APP_ERROR_HANDLER` escalation on an untolerated sink error (no event is
dispatched); `emitted` carries the dispatched event and sink action. -/
inductive DeferredOutcome where
  | undef
  | fault (code : Nat)
  | emitted (r : DeferredResult)
deriving Repr, DecidableEq

/-- Deferred handler `batt_event_handler_adc` (m_batt_meas.c lines 189-232), executed in
main context on the voltage dequeued from the scheduler. In source order:
set `valid_voltage = true`; classify the voltage against
`batt_voltage_limit_low` / `batt_voltage_limit_full`
(`≤ low` ⇒ LOW, else `≥ full` ⇒ FULL, else DATA); compute the percentage
via `batt_voltage_to_percent`; if the BLE battery service is configured,
push the level, escalating any sink code other than `NRF_SUCCESS`,
`NRF_ERROR_INVALID_STATE`, `BLE_ERROR_GATTS_SYS_ATTR_MISSING`; otherwise
retain it as the initial level; finally call `m_evt_handler` with the
event. `bas_configured` models `m_ble_bas_configured` and `sink_err` the
return value of the external `ble_bas_battery_level_update`. The
classification chain (lines 197-208) is factored out as
`classify_voltage`. -/
def classify_voltage (p : BattMeasParam) (voltage_mv : Nat) : BattMeasEventType :=
  if voltage_mv ≤ p.batt_voltage_limit_low then .low
  else if voltage_mv ≥ p.batt_voltage_limit_full then .full
  else .data

/-- The rest of `batt_event_handler_adc` (lines 189-232): percentage
computation, sink interaction, and dispatch, with the event type computed
by `classify_voltage`; see the doc comment above `classify_voltage`. -/
def batt_event_handler_adc (p : BattMeasParam) (bas_configured : Bool) (sink_err : Nat)
    (voltage_mv : Nat) : DeferredOutcome :=
  match batt_voltage_to_percent p.state_of_charge voltage_mv with
  | none => .undef
  | some pct =>
    if bas_configured then
      if sink_err ≠ NRF_SUCCESS ∧ sink_err ≠ NRF_ERROR_INVALID_STATE ∧
         sink_err ≠ BLE_ERROR_GATTS_SYS_ATTR_MISSING
      then .fault sink_err
      else .emitted ⟨⟨classify_voltage p voltage_mv, voltage_mv, pct, true⟩, .basUpdate pct⟩
    else .emitted ⟨⟨classify_voltage p voltage_mv, voltage_mv, pct, true⟩, .retainInitial pct⟩

/-- The SAADC driver events delivered to `saadc_event_handler_interrupt`:
calibration finished, or a sample conversion finished with the raw code
sitting in the single-sample buffer. Modelled from the spec: the driver
headers are not under `src/`. -/
inductive SaadcEvt where
  | calibratedone
  | done (raw : Nat)
deriving Repr, DecidableEq

/-- Observable actions of one measurement cycle, in execution order. -/
inductive Action where
  | trigger
  | completionSignal (raw : Nat)
  | convertInInterrupt (raw : Nat)
  | schedPut (voltage : Nat)
  | calFlagClear
  | adcRelease
  | classifyDeferred (voltage : Nat)
  | sink (s : SinkAction)
  | dispatch (ty : BattMeasEventType) (valid : Bool)
deriving Repr, DecidableEq

/-- Embedding of `saadc_event_handler_interrupt` (m_batt_meas.c lines 236-255) as the
sequence of actions it performs in interrupt context. On
`CALIBRATEDONE`: clear `m_adc_cal_in_progress`, then
`nrf_drv_saadc_uninit`. On `DONE`: convert the raw buffer value to
millivolts via `adc_to_batt_voltage` (the conversion function is passed in
as `conv`), put the converted voltage on the app-scheduler queue for
`batt_event_handler_adc`, then `nrf_drv_saadc_uninit`. -/
def saadc_event_handler_interrupt (conv : Nat → Nat) : SaadcEvt → List Action
  | .calibratedone => [.calFlagClear, .adcRelease]
  | .done raw => [.convertInInterrupt raw, .schedPut (conv raw), .adcRelease]

/-- The payload `saadc_event_handler_interrupt` hands to the scheduler
queue on a given event (`none` when nothing is enqueued). -/
def interrupt_enqueued (conv : Nat → Nat) (ev : SaadcEvt) : Option Nat :=
  (saadc_event_handler_interrupt conv ev).foldr
    (fun a acc => match a with | .schedPut v => some v | _ => acc) none

/-- Tests whether the interrupt handler hands the raw sample off unchanged
(the spec's "only captures the raw sample"): the enqueued payload equals
the raw code. -/
def enqueues_raw_unchanged (conv : Nat → Nat) (raw : Nat) : Bool :=
  interrupt_enqueued conv (.done raw) == some raw

/-- Action list of the deferred part of a cycle: classification of the
dequeued voltage, the sink action, and the dispatch to `m_evt_handler`,
projected from `batt_event_handler_adc`; `none` when the deferred handler
does not reach the dispatch (`undef` or `fault`). -/
def deferred_trace (p : BattMeasParam) (bas_configured : Bool) (sink_err : Nat)
    (voltage_mv : Nat) : Option (List Action) :=
  match batt_event_handler_adc p bas_configured sink_err voltage_mv with
  | .emitted r =>
      some [.classifyDeferred voltage_mv, .sink r.sink,
            .dispatch r.event.type r.event.valid_voltage]
  | _ => none

/-- Observable actions of one complete measurement cycle, in program
order: the tick handler triggers acquisition (the successful path of
`app_timer_periodic_handler` on a released ADC), the peripheral delivers
the completion signal with the raw code, `saadc_event_handler_interrupt`
runs in interrupt context, then the scheduler runs
`batt_event_handler_adc` in main context. -/
def measurement_cycle_trace (conv : Nat → Nat) (p : BattMeasParam) (bas_configured : Bool)
    (sink_err : Nat) (raw : Nat) : Option (List Action) :=
  (deferred_trace p bas_configured sink_err (conv raw)).map fun dt =>
    [Action.trigger, Action.completionSignal raw] ++
      saadc_event_handler_interrupt conv (.done raw) ++ dt

/-- Index of the first action in the list satisfying `p`. -/
def first_idx (p : Action → Bool) : List Action → Option Nat
  | [] => none
  | a :: tr => if p a then some 0 else (first_idx p tr).map (· + 1)

/-- Holds (as `true`) when both kinds of action occur in the trace and the first
`p`-action strictly precedes the first `q`-action. -/
def ordered_before (tr : List Action) (p q : Action → Bool) : Bool :=
  match first_idx p tr, first_idx q tr with
  | some i, some j => decide (i < j)
  | _, _ => false

/-- Number of actions in the trace satisfying `p`. -/
def count_actions (p : Action → Bool) : List Action → Nat
  | [] => 0
  | a :: tr => (if p a then 1 else 0) + count_actions p tr

/-- Recognizer for the trigger action. -/
def Action.isTrigger : Action → Bool
  | .trigger => true
  | _ => false

/-- Recognizer for the completion-signal action. -/
def Action.isCompletion : Action → Bool
  | .completionSignal _ => true
  | _ => false

/-- Recognizer for the ADC release (`nrf_drv_saadc_uninit`) action. -/
def Action.isRelease : Action → Bool
  | .adcRelease => true
  | _ => false

/-- Recognizer for the deferred classification action. -/
def Action.isClassify : Action → Bool
  | .classifyDeferred _ => true
  | _ => false

/-- Recognizer for the event-dispatch action. -/
def Action.isDispatch : Action → Bool
  | .dispatch _ _ => true
  | _ => false

/-- Recognizer for the external-sink call (`ble_bas_battery_level_update`
push, observable only when the service is configured). -/
def Action.isSinkPush : Action → Bool
  | .sink (.basUpdate _) => true
  | _ => false

/-- The busy-wait loop of `saadc_calibrate` (m_batt_meas.c lines 300-303):
`while (m_adc_cal_in_progress) { }`. `flag t` is the value the `t`-th read
of the volatile `m_adc_cal_in_progress` observes (the CALIBRATEDONE
interrupt is what clears it); `fuel` bounds the number of loop iterations
the model unrolls, with `none` meaning the loop is still spinning after
`fuel` reads. Returns the index of the read that observed `false`. -/
def cal_wait_loop (flag : Nat → Bool) (t : Nat) : Nat → Option Nat
  | 0 => none
  | fuel + 1 => if flag t then cal_wait_loop flag (t + 1) fuel else some t

/-- Embedding of `saadc_calibrate` (m_batt_meas.c lines 287-306): initialize the SAADC,
set `m_adc_cal_in_progress`, request offset calibration (driver calls
modelled from the spec as succeeding), then busy-wait on the flag, and
return `M_BATT_STATUS_CODE_SUCCESS` — the only status the function can
return. `none` means the wait loop has not exited within `fuel`
iterations. -/
def saadc_calibrate (flag : Nat → Bool) (fuel : Nat) : Option Nat :=
  (cal_wait_loop flag 0 fuel).map fun _ => M_BATT_STATUS_CODE_SUCCESS

/-- Termination of `saadc_calibrate` on the flag trace `flag`: some finite
unrolling of the busy-wait loop exits. -/
def saadc_calibrate_terminates (flag : Nat → Bool) : Prop :=
  ∃ fuel r, saadc_calibrate flag fuel = some r

/-- Nontermination of `saadc_calibrate` on the flag trace `flag`: no finite
unrolling of the busy-wait loop exits. -/
def spins_forever (flag : Nat → Bool) : Prop :=
  ∀ fuel, saadc_calibrate flag fuel = none

/-- A parameter block with the spec's concrete values: divider
`r1 = r2 = 10000`, thresholds `low = 3300`, `full = 4100`, and the
`exampleSoc` table. -/
def exampleParam : BattMeasParam := ⟨⟨10000, 10000⟩, 3300, 4100, exampleSoc⟩

/-- A SoC table with `first_element_mv = 0` and `delta_mv = 1`, satisfying
the spec's table invariants (`delta_mv > 0`, `num_elements ≥ 1`), on which
the `int16_t` narrowing in `batt_voltage_to_percent` wraps for large input
voltages. -/
def wideSoc : StateOfCharge := ⟨0, 1, 11, [0, 10, 20, 30, 40, 50, 60, 70, 80, 90, 100]⟩

/-- The concrete action list of one measurement cycle at raw code 128 with
`exampleParam`, resolution 14 bits and divider factor 1/2 (so the
converted voltage is 10 mV and the percent level 0). -/
def c4ConcreteTrace : List Action :=
  [.trigger, .completionSignal 128, .convertInInterrupt 128, .schedPut 10,
   .adcRelease, .classifyDeferred 10, .sink (.retainInitial 0), .dispatch .low true]

/-! Theorems. -/

/-- Concrete evaluation of the conversion model: at 14-bit resolution,
gain 1, reference 0.6 and divider factor 1/2, raw code 128 converts to
10 mV. -/
theorem conv_example_128 : adc_to_batt_voltage 14 (1/2) 128 = 10 := by
  norm_num [adc_to_batt_voltage, Rat.floor]
  decide

/-- Shape of every `emitted` outcome of `batt_event_handler_adc`: the
event carries the classification of the input voltage, the input voltage
itself, the percentage produced by `batt_voltage_to_percent`, and
`valid_voltage = true`. -/
theorem handler_emitted_fields (p : BattMeasParam) (bas : Bool) (sink_err v : Nat)
    (r : DeferredResult)
    (h : batt_event_handler_adc p bas sink_err v = .emitted r) :
    r.event = ⟨classify_voltage p v, v, r.event.level_percent, true⟩ ∧
    batt_voltage_to_percent p.state_of_charge v = some r.event.level_percent := by
  unfold batt_event_handler_adc at h
  cases hbv : batt_voltage_to_percent p.state_of_charge v with
  | none =>
    simp only [hbv] at h
    exact DeferredOutcome.noConfusion h
  | some pct =>
    simp only [hbv] at h
    split at h
    · split at h
      · exact DeferredOutcome.noConfusion h
      · cases h; exact ⟨rfl, rfl⟩
    · cases h; exact ⟨rfl, rfl⟩

/-- Exit reads of the busy-wait loop: when `cal_wait_loop` returns
`some u`, the read at index `u` observed the flag cleared. -/
theorem cal_wait_loop_some_flag (flag : Nat → Bool) :
    ∀ fuel t u, cal_wait_loop flag t fuel = some u → flag u = false := by
  intro fuel
  induction fuel with
  | zero => intro t u h; exact Option.noConfusion h
  | succ n ih =>
    intro t u h
    unfold cal_wait_loop at h
    by_cases hf : flag t
    · rw [if_pos hf] at h
      exact ih (t + 1) u h
    · rw [if_neg hf] at h
      cases h
      exact Bool.not_eq_true _ ▸ hf

/-- Progress of the busy-wait loop: if the flag is observed cleared `d`
reads after the start index, the loop exits within `d + 1` iterations. -/
theorem cal_wait_loop_reaches (flag : Nat → Bool) :
    ∀ d t, flag (t + d) = false → ∃ u, cal_wait_loop flag t (d + 1) = some u := by
  intro d
  induction d with
  | zero => intro t h; exact ⟨t, by rw [Nat.add_zero] at h; simp [cal_wait_loop, h]⟩
  | succ n ih =>
    intro t h
    unfold cal_wait_loop
    by_cases hf : flag t
    · rw [if_pos hf]
      exact ih (t + 1) (by rw [show t + 1 + n = t + (n + 1) by omega]; exact h)
    · exact ⟨t, by rw [if_neg hf]⟩

/-- C1: a tick of `app_timer_periodic_handler` while the ADC is already
initialized does not return the benign "already in progress" condition: the
`APP_ERROR_CHECK` inside `saadc_init` escalates `NRF_ERROR_INVALID_STATE`
to the fatal error handler before the handler's benign check can run (that
check is unreachable: `saadc_init` either faults or returns
`M_BATT_STATUS_CODE_SUCCESS`). A tick on a released ADC triggers a
sample. -/
theorem c1_tick_already_initialized_escalates :
    app_timer_periodic_handler ⟨true⟩ = .error (.appError NRF_ERROR_INVALID_STATE)
    ∧ app_timer_periodic_handler ⟨false⟩ = .ok (.triggered, ⟨true⟩)
    ∧ ∀ s : AdcDriverState,
        saadc_init s = if s.initialized
          then .error (.appError NRF_ERROR_INVALID_STATE)
          else .ok (M_BATT_STATUS_CODE_SUCCESS, ⟨true⟩) :=
  ⟨rfl, rfl, fun s => by cases s with | mk b => cases b <;> rfl⟩

/-- C2 (counterexample): the interrupt-context SAADC handler does not hand
the raw sample off unchanged — on a DONE event with raw code 128 (with
14-bit resolution and divider factor 1/2) the payload put on the scheduler
queue is the converted millivolt value 10, i.e. the raw-code-to-millivolt
conversion runs in interrupt context. -/
theorem c2_interrupt_converts_counterexample :
    enqueues_raw_unchanged (adc_to_batt_voltage 14 (1/2)) 128 = false ∧
    interrupt_enqueued (adc_to_batt_voltage 14 (1/2)) (.done 128) =
      some (adc_to_batt_voltage 14 (1/2) 128) ∧
    adc_to_batt_voltage 14 (1/2) 128 = 10 := by
  refine ⟨?_, rfl, conv_example_128⟩
  simp only [enqueues_raw_unchanged, interrupt_enqueued, saadc_event_handler_interrupt,
    List.foldr, conv_example_128]
  decide

/-- C2 (amended): for every ADC completion event the interrupt-context
handler performs exactly the raw-to-millivolt conversion, enqueues the
converted voltage for the deferred context, and releases the ADC (on a
calibration-done signal it clears the flag and releases); it performs no
SoC lookup, no classification dispatch and no external-sink call in
interrupt context. -/
theorem c2_interrupt_handler_actions (conv : Nat → Nat) (raw : Nat) :
    saadc_event_handler_interrupt conv (.done raw) =
      [.convertInInterrupt raw, .schedPut (conv raw), .adcRelease]
    ∧ saadc_event_handler_interrupt conv .calibratedone = [.calFlagClear, .adcRelease]
    ∧ count_actions Action.isClassify (saadc_event_handler_interrupt conv (.done raw)) = 0
    ∧ count_actions Action.isDispatch (saadc_event_handler_interrupt conv (.done raw)) = 0
    ∧ count_actions Action.isSinkPush (saadc_event_handler_interrupt conv (.done raw)) = 0 :=
  ⟨rfl, rfl, rfl, rfl, rfl⟩

/-- C3 (counterexample): `saadc_calibrate` does not terminate on every
execution — on an execution where the completion signal never arrives
(the flag trace is constantly `true`) the busy-wait loop spins forever; in
particular no `CalibrationTimeout` result exists. -/
theorem c3_no_timeout_counterexample : spins_forever (fun _ => true) := by
  have h : ∀ fuel t, cal_wait_loop (fun _ => true) t fuel = none := by
    intro fuel
    induction fuel with
    | zero => intro t; rfl
    | succ n ih => intro t; simp [cal_wait_loop, ih]
  intro fuel
  simp [saadc_calibrate, h]

/-- C3 (amended): `saadc_calibrate` busy-waits with no time bound: it
terminates exactly when the completion signal arrives (some read of
`m_adc_cal_in_progress` observes `false`), and every terminating run
returns `M_BATT_STATUS_CODE_SUCCESS` — there is no timeout error path. -/
theorem c3_calibrate_terminates_iff_signal (flag : Nat → Bool) :
    (saadc_calibrate_terminates flag ↔ ∃ t, flag t = false)
    ∧ (∀ fuel r, saadc_calibrate flag fuel = some r → r = M_BATT_STATUS_CODE_SUCCESS) := by
  constructor
  · constructor
    · rintro ⟨fuel, r, h⟩
      unfold saadc_calibrate at h
      rcases Option.map_eq_some'.1 h with ⟨u, hu, -⟩
      exact ⟨u, cal_wait_loop_some_flag flag fuel 0 u hu⟩
    · rintro ⟨t, ht⟩
      rcases cal_wait_loop_reaches flag t 0 (by simpa using ht) with ⟨u, hu⟩
      exact ⟨t + 1, M_BATT_STATUS_CODE_SUCCESS, by unfold saadc_calibrate; rw [hu]; rfl⟩
  · intro fuel r h
    unfold saadc_calibrate at h
    rcases Option.map_eq_some'.1 h with ⟨u, -, hr⟩
    exact hr.symm

/-- C3 (witness): a flag trace whose very first read observes the signal
makes `saadc_calibrate` terminate. -/
theorem c3_calibrate_terminates_iff_signal_witness :
    saadc_calibrate_terminates (fun _ => false) :=
  ((c3_calibrate_terminates_iff_signal (fun _ => false)).1).mpr ⟨0, rfl⟩

/-- C4 (counterexample): in the concrete measurement cycle at raw code
128 the ADC release (`nrf_drv_saadc_uninit`, performed by the interrupt
handler) occurs strictly before the event dispatch, so the ADC is not
"released only after event dispatch". -/
theorem c4_release_before_dispatch_counterexample :
    measurement_cycle_trace (adc_to_batt_voltage 14 (1/2)) exampleParam false 0 128 =
      some c4ConcreteTrace
    ∧ ordered_before c4ConcreteTrace Action.isDispatch Action.isRelease = false
    ∧ ordered_before c4ConcreteTrace Action.isRelease Action.isDispatch = true := by
  refine ⟨?_, by decide, by decide⟩
  simp only [measurement_cycle_trace, deferred_trace, saadc_event_handler_interrupt,
    conv_example_128, c4ConcreteTrace]
  decide

/-- C4 (amended): in every measurement cycle that reaches dispatch, the
order of actions is trigger, then completion signal, then ADC release (in
the interrupt handler, right after the hand-off), then deferred
classification, then event dispatch; the cycle contains exactly one
trigger and exactly one release. -/
theorem c4_cycle_ordering (conv : Nat → Nat) (p : BattMeasParam) (bas : Bool)
    (sink_err raw : Nat) (r : DeferredResult)
    (h : batt_event_handler_adc p bas sink_err (conv raw) = .emitted r) :
    ∃ tr, measurement_cycle_trace conv p bas sink_err raw = some tr ∧
      ordered_before tr Action.isTrigger Action.isCompletion = true ∧
      ordered_before tr Action.isCompletion Action.isRelease = true ∧
      ordered_before tr Action.isRelease Action.isClassify = true ∧
      ordered_before tr Action.isClassify Action.isDispatch = true ∧
      count_actions Action.isTrigger tr = 1 ∧
      count_actions Action.isRelease tr = 1 := by
  refine ⟨[.trigger, .completionSignal raw, .convertInInterrupt raw, .schedPut (conv raw),
           .adcRelease, .classifyDeferred (conv raw), .sink r.sink,
           .dispatch r.event.type r.event.valid_voltage], ?_, rfl, rfl, rfl, rfl, rfl, rfl⟩
  simp [measurement_cycle_trace, deferred_trace, h, saadc_event_handler_interrupt]

/-- C4 (witness): the cycle ordering instantiated at the concrete cycle of
`c4ConcreteTrace`. -/
theorem c4_cycle_ordering_witness :
    ∃ tr, measurement_cycle_trace (adc_to_batt_voltage 14 (1/2)) exampleParam false 0 128 =
        some tr ∧
      ordered_before tr Action.isTrigger Action.isCompletion = true ∧
      ordered_before tr Action.isCompletion Action.isRelease = true ∧
      ordered_before tr Action.isRelease Action.isClassify = true ∧
      ordered_before tr Action.isClassify Action.isDispatch = true ∧
      count_actions Action.isTrigger tr = 1 ∧
      count_actions Action.isRelease tr = 1 :=
  c4_cycle_ordering (adc_to_batt_voltage 14 (1/2)) exampleParam false 0 128
    ⟨⟨.low, 10, 0, true⟩, .retainInitial 0⟩ (by rw [conv_example_128]; decide)

/-- C5 (counterexample): on the table `wideSoc` (which satisfies the
claim's invariants `delta_mv > 0`, `num_elements ≥ 1`) and the u16 input
65535, the source's lookup returns `levels[0] = 0` — the quotient 65535
wraps to −1 in the `int16_t` narrowing and is clamped to 0 — while the
spec's floor-division-and-clamp algorithm returns
`levels[num_elements−1] = 100`. -/
theorem c5_int16_wrap_counterexample :
    batt_voltage_to_percent wideSoc 65535 = some 0 ∧
    voltage_to_percent_spec wideSoc 65535 = some 100 ∧
    wideSoc.voltage_to_soc.get? (wideSoc.num_elements - 1) = some 100 := by
  refine ⟨by decide, by decide, by decide⟩

/-- C5 (amended): whenever the truncated quotient
`(voltage_mv − first_element_mv) / delta_mv` fits in `int16_t`
(−32768..32767), `batt_voltage_to_percent` agrees with the spec's
floor-division-and-clamp algorithm (under the table invariants
`delta_mv > 0` and `num_elements ≥ 1`); the spec's concrete examples
2500 ↦ levels[0], 5000 ↦ levels[10], 3050 ↦ levels[0] hold. -/
theorem c5_lookup_matches_spec (soc : StateOfCharge) (v : Nat)
    (hd : 0 < soc.delta_mv) (hn : 1 ≤ soc.num_elements)
    (hfit_lo : -32768 ≤ ((v : Int) - (soc.first_element_mv : Int)).tdiv (soc.delta_mv : Int))
    (hfit_hi : ((v : Int) - (soc.first_element_mv : Int)).tdiv (soc.delta_mv : Int) ≤ 32767) :
    batt_voltage_to_percent soc v = voltage_to_percent_spec soc v
    ∧ batt_voltage_to_percent exampleSoc 2500 = some 0
    ∧ batt_voltage_to_percent exampleSoc 5000 = some 100
    ∧ batt_voltage_to_percent exampleSoc 3050 = some 0 := by
  refine ⟨?_, by decide, by decide, by decide⟩
  have hdpos : (0 : Int) < (soc.delta_mv : Int) := by exact_mod_cast hd
  have hnum : (1 : Int) ≤ (soc.num_elements : Int) := by exact_mod_cast hn
  simp only [batt_voltage_to_percent, voltage_to_percent_spec]
  rw [if_neg (by omega : ¬ soc.delta_mv = 0)]
  set q : Int := ((v : Int) - (soc.first_element_mv : Int)).tdiv (soc.delta_mv : Int) with hq
  set f : Int := ((v : Int) - (soc.first_element_mv : Int)).fdiv (soc.delta_mv : Int) with hf
  have h16 : int16ofInt q = q := by unfold int16ofInt; omega
  rw [h16]
  rcases le_or_lt (soc.first_element_mv : Int) (v : Int) with hge | hlt
  · have hqf : q = f := by
      rw [hq, hf, Int.tdiv_eq_ediv (by omega) (by omega), Int.fdiv_eq_ediv _ (by omega)]
    have hidx : (if q < 0 then (0 : Int)
          else if q > (soc.num_elements : Int) - 1 then (soc.num_elements : Int) - 1 else q)
        = max 0 (min f ((soc.num_elements : Int) - 1)) := by
      rw [← hqf]; split_ifs <;> omega
    rw [hidx, if_neg (by omega : ¬ max 0 (min f ((soc.num_elements : Int) - 1)) < 0)]
  · have hneg : (v : Int) - (soc.first_element_mv : Int) < 0 := by omega
    have hqle : q ≤ 0 := by
      have h1 : (0 : Int) ≤ (-((v : Int) - (soc.first_element_mv : Int))).tdiv (soc.delta_mv : Int) :=
        Int.tdiv_nonneg (by omega) (by omega)
      have h2 : q = -((-((v : Int) - (soc.first_element_mv : Int))).tdiv (soc.delta_mv : Int)) := by
        rw [hq, Int.neg_tdiv, neg_neg]
      omega
    have hfneg : f < 0 := Int.fdiv_neg' hneg hdpos
    have hcode : (if q < 0 then (0 : Int)
          else if q > (soc.num_elements : Int) - 1 then (soc.num_elements : Int) - 1 else q)
        = (0 : Int) := by
      split_ifs <;> omega
    have hspec : max 0 (min f ((soc.num_elements : Int) - 1)) = (0 : Int) := by omega
    rw [hcode, hspec, if_neg (by omega : ¬ (0 : Int) < 0)]

/-- C5 (witness): the agreement instantiated at the spec's example table
and input 2500 (where the truncated quotient −5 fits in `int16_t`). -/
theorem c5_lookup_matches_spec_witness :
    batt_voltage_to_percent exampleSoc 2500 = voltage_to_percent_spec exampleSoc 2500 :=
  (c5_lookup_matches_spec exampleSoc 2500 (by decide) (by decide) (by decide) (by decide)).1

/-- C7: `param_check` characterization. With a null handler it fails with
the null-handler error regardless of the other fields. With a non-null
handler: both resistors zero is accepted with divider factor 1 (given
valid thresholds); it fails with the invalid-divider error exactly when
one resistor is zero and the other nonzero; it fails with the
invalid-thresholds error exactly when the divider is not the
exactly-one-zero case and `voltage_low > voltage_full`; and with both
resistors nonzero and valid thresholds it is accepted with factor
`r2/(r1+r2)`. -/
theorem c7_param_check_characterization :
    (∀ p : BattMeasInit, p.evt_handler_null = true → param_check p = .errNullHandler)
    ∧ (∀ p : BattMeasInit, p.evt_handler_null = false →
        p.batt_meas_param.voltage_divider.r_1_ohm = 0 →
        p.batt_meas_param.voltage_divider.r_2_ohm = 0 →
        p.batt_meas_param.batt_voltage_limit_low ≤ p.batt_meas_param.batt_voltage_limit_full →
        param_check p = .ok 1)
    ∧ (∀ p : BattMeasInit, p.evt_handler_null = false →
        (param_check p = .errInvalidDivider ↔
          ((p.batt_meas_param.voltage_divider.r_1_ohm = 0 ∧
            p.batt_meas_param.voltage_divider.r_2_ohm ≠ 0) ∨
           (p.batt_meas_param.voltage_divider.r_1_ohm ≠ 0 ∧
            p.batt_meas_param.voltage_divider.r_2_ohm = 0))))
    ∧ (∀ p : BattMeasInit, p.evt_handler_null = false →
        (param_check p = .errInvalidThresholds ↔
          (¬((p.batt_meas_param.voltage_divider.r_1_ohm = 0 ∧
              p.batt_meas_param.voltage_divider.r_2_ohm ≠ 0) ∨
             (p.batt_meas_param.voltage_divider.r_1_ohm ≠ 0 ∧
              p.batt_meas_param.voltage_divider.r_2_ohm = 0)) ∧
           p.batt_meas_param.batt_voltage_limit_full < p.batt_meas_param.batt_voltage_limit_low)))
    ∧ (∀ p : BattMeasInit, p.evt_handler_null = false →
        p.batt_meas_param.voltage_divider.r_1_ohm ≠ 0 →
        p.batt_meas_param.voltage_divider.r_2_ohm ≠ 0 →
        p.batt_meas_param.batt_voltage_limit_low ≤ p.batt_meas_param.batt_voltage_limit_full →
        param_check p = .ok ((p.batt_meas_param.voltage_divider.r_2_ohm : ℚ) /
          ((p.batt_meas_param.voltage_divider.r_1_ohm : ℚ) +
           (p.batt_meas_param.voltage_divider.r_2_ohm : ℚ)))) := by
  refine ⟨?_, ?_, ?_, ?_, ?_⟩
  · rintro ⟨hn, ⟨⟨r1, r2⟩, low, full, soc⟩⟩ h
    simp only at h
    subst h
    rfl
  · rintro ⟨hn, ⟨⟨r1, r2⟩, low, full, soc⟩⟩ h h1 h2 h3
    simp only at h h1 h2 h3
    subst h; subst h1; subst h2
    simp only [param_check]
    rw [if_neg (by simp), if_pos (by simp), if_neg (by omega)]
  · rintro ⟨hn, ⟨⟨r1, r2⟩, low, full, soc⟩⟩ h
    simp only at h ⊢
    subst h
    simp only [param_check]
    split_ifs <;> simp_all
    all_goals omega
  · rintro ⟨hn, ⟨⟨r1, r2⟩, low, full, soc⟩⟩ h
    simp only at h ⊢
    subst h
    simp only [param_check]
    split_ifs <;> simp_all
    all_goals omega
  · rintro ⟨hn, ⟨⟨r1, r2⟩, low, full, soc⟩⟩ h h1 h2 h3
    simp only at h h1 h2 h3 ⊢
    subst h
    simp only [param_check]
    rw [if_neg (by simp), if_neg (by tauto), if_neg (by tauto), if_neg (by omega)]

/-- C7 (witness): both resistors zero is accepted with factor 1, and
`r1 = 0, r2 = 10000` is rejected with the invalid-divider error. -/
theorem c7_param_check_characterization_witness :
    param_check ⟨false, ⟨⟨0, 0⟩, 3300, 4100, exampleSoc⟩⟩ = .ok 1 ∧
    param_check ⟨false, ⟨⟨0, 10000⟩, 3300, 4100, exampleSoc⟩⟩ = .errInvalidDivider :=
  ⟨c7_param_check_characterization.2.1 _ rfl rfl rfl (by decide),
   (c7_param_check_characterization.2.2.1 _ rfl).mpr (Or.inl ⟨rfl, by decide⟩)⟩

/-- C8: every dispatched measurement event is classified by the else-if
chain of `batt_event_handler_adc`: LOW when the voltage is at most the low
limit, FULL when it is above the low limit and at least the full limit,
DATA when it is strictly between; with `low = 3300` and `full = 4100`
exactly 3300 mV is LOW, exactly 4100 mV is FULL, and 3700 mV is DATA. -/
theorem c8_threshold_classification :
    (∀ (p : BattMeasParam) (bas : Bool) (sink_err v : Nat) (r : DeferredResult),
        batt_event_handler_adc p bas sink_err v = .emitted r →
        v ≤ p.batt_voltage_limit_low → r.event.type = .low)
    ∧ (∀ (p : BattMeasParam) (bas : Bool) (sink_err v : Nat) (r : DeferredResult),
        batt_event_handler_adc p bas sink_err v = .emitted r →
        p.batt_voltage_limit_low < v → p.batt_voltage_limit_full ≤ v →
        r.event.type = .full)
    ∧ (∀ (p : BattMeasParam) (bas : Bool) (sink_err v : Nat) (r : DeferredResult),
        batt_event_handler_adc p bas sink_err v = .emitted r →
        p.batt_voltage_limit_low < v → v < p.batt_voltage_limit_full →
        r.event.type = .data)
    ∧ batt_event_handler_adc exampleParam false 0 3300 =
        .emitted ⟨⟨.low, 3300, 30, true⟩, .retainInitial 30⟩
    ∧ batt_event_handler_adc exampleParam false 0 4100 =
        .emitted ⟨⟨.full, 4100, 100, true⟩, .retainInitial 100⟩
    ∧ batt_event_handler_adc exampleParam false 0 3700 =
        .emitted ⟨⟨.data, 3700, 70, true⟩, .retainInitial 70⟩ := by
  refine ⟨?_, ?_, ?_, by decide, by decide, by decide⟩
  · intro p bas sink_err v r h hv
    rw [(handler_emitted_fields p bas sink_err v r h).1]
    unfold classify_voltage
    rw [if_pos hv]
  · intro p bas sink_err v r h h1 h2
    rw [(handler_emitted_fields p bas sink_err v r h).1]
    unfold classify_voltage
    rw [if_neg (by omega), if_pos h2]
  · intro p bas sink_err v r h h1 h2
    rw [(handler_emitted_fields p bas sink_err v r h).1]
    unfold classify_voltage
    rw [if_neg (by omega), if_neg (by omega)]

/-- C8 (witness): the LOW case instantiated at the boundary voltage
3300 mV with the example parameters. -/
theorem c8_threshold_classification_witness :
    batt_event_handler_adc exampleParam false 0 3300 =
      .emitted ⟨⟨.low, 3300, 30, true⟩, .retainInitial 30⟩ ∧
    (⟨⟨.low, 3300, 30, true⟩, .retainInitial 30⟩ : DeferredResult).event.type = .low :=
  ⟨by decide, c8_threshold_classification.1 exampleParam false 0 3300 _ (by decide) (by decide)⟩

/-- C9: the division by `delta_mv` in `batt_voltage_to_percent` is
unguarded — with `delta_mv = 0` the lookup is undefined at every input —
while `param_check` is entirely independent of the state-of-charge table
(it never examines `delta_mv` or `num_elements`); under the precondition
`delta_mv > 0` (plus a well-formed table: `num_elements ≥ 1` and within
the array length) the lookup is defined for every input voltage. -/
theorem c9_soc_lookup_guarded_only_by_delta :
    (∀ (soc : StateOfCharge) (v : Nat), soc.delta_mv = 0 →
        batt_voltage_to_percent soc v = none)
    ∧ (∀ (p : BattMeasInit) (s : StateOfCharge),
        param_check ⟨p.evt_handler_null,
          ⟨p.batt_meas_param.voltage_divider, p.batt_meas_param.batt_voltage_limit_low,
           p.batt_meas_param.batt_voltage_limit_full, s⟩⟩ = param_check p)
    ∧ (∀ (soc : StateOfCharge) (v : Nat), 0 < soc.delta_mv → 1 ≤ soc.num_elements →
        soc.num_elements ≤ soc.voltage_to_soc.length →
        (batt_voltage_to_percent soc v).isSome = true) := by
  refine ⟨?_, ?_, ?_⟩
  · intro soc v h
    simp [batt_voltage_to_percent, h]
  · intro p s
    rfl
  · intro soc v hd hn hlen
    simp only [batt_voltage_to_percent]
    rw [if_neg (by omega)]
    have key : ∀ e : Int, 0 ≤ e → e.toNat < soc.voltage_to_soc.length →
        (if e < 0 then none else soc.voltage_to_soc.get? e.toNat).isSome = true := by
      intro e h0 hlt
      rw [if_neg (by omega), List.get?_eq_get hlt]
      rfl
    apply key
    · split_ifs <;> omega
    · split_ifs <;> omega

/-- C9 (witness): a table with `delta_mv = 0` is undefined at input 3500,
and the well-formed example table is defined there. -/
theorem c9_soc_lookup_guarded_only_by_delta_witness :
    batt_voltage_to_percent ⟨3000, 0, 11, [0]⟩ 3500 = none ∧
    (batt_voltage_to_percent exampleSoc 3500).isSome = true :=
  ⟨c9_soc_lookup_guarded_only_by_delta.1 ⟨3000, 0, 11, [0]⟩ 3500 rfl,
   c9_soc_lookup_guarded_only_by_delta.2.2 exampleSoc 3500 (by decide) (by decide) (by decide)⟩

/-- C10: every measurement event dispatched to the external handler by the
deferred classifier has `valid_voltage = true`; no reachable dispatch
carries `valid_voltage = false`. -/
theorem c10_valid_voltage_always_true (p : BattMeasParam) (bas : Bool) (sink_err v : Nat)
    (r : DeferredResult)
    (h : batt_event_handler_adc p bas sink_err v = .emitted r) :
    r.event.valid_voltage = true := by
  rw [(handler_emitted_fields p bas sink_err v r h).1]

/-- C10 (witness): the valid flag of the concrete event dispatched at
3700 mV with the example parameters. -/
theorem c10_valid_voltage_always_true_witness :
    batt_event_handler_adc exampleParam false 0 3700 =
      .emitted ⟨⟨.data, 3700, 70, true⟩, .retainInitial 70⟩ ∧
    (⟨⟨.data, 3700, 70, true⟩, .retainInitial 70⟩ : DeferredResult).event.valid_voltage = true :=
  ⟨by decide, c10_valid_voltage_always_true exampleParam false 0 3700 _ (by decide)⟩

end BattMeas
